import Mathlib

/-!
Verification of the Smart-Forensic-AI storage layer and UI logic.

The definitions below are a shallow embedding of:
- the SQL migration (tables profiles, sessions, composite_faces, logs,
  their row-level-security policies, the updated_at trigger and the
  handle_new_user signup trigger);
- the React call sites that query and mutate those tables
  (Dashboard.fetchSessions, Index.fetchSession, handleGenerate);
- the CanvasPanel zoom handlers.

Identifiers are modelled as natural numbers, timestamps as natural
numbers, SQL TEXT as String, and nullable columns as Option.
Fallible statements return Except DBError DB.  Row-level security is
modelled as in Postgres: a statement kind with no policy on a table
with RLS enabled denies every row.
-/

namespace ForensicAI

abbrev UserId := Nat
abbrev SessionId := Nat
abbrev RowId := Nat
abbrev Time := Nat

/-- Row of public.profiles. -/
structure Profile where
  id : UserId
  full_name : Option String
  created_at : Time
deriving DecidableEq, Repr

/-- Row of public.sessions. -/
structure Session where
  id : SessionId
  user_id : UserId
  raw_input : Option String
  status : String
  started_at : Time
  updated_at : Time
deriving DecidableEq, Repr

/-- Row of public.composite_faces. -/
structure CompositeFace where
  id : RowId
  session_id : SessionId
  face_image_path : Option String
  version : Int
  created_at : Time
deriving DecidableEq, Repr

/-- Row of public.logs. -/
structure Log where
  id : RowId
  session_id : SessionId
  action_type : String
  description : String
  timestamp : Time
deriving DecidableEq, Repr

/-- The four public tables of the migration. -/
structure DB where
  profiles : List Profile
  sessions : List Session
  composite_faces : List CompositeFace
  logs : List Log
deriving DecidableEq, Repr

/-- The status CHECK constraint on public.sessions: the value must be
one of Started, Processing, In Progress, Completed. -/
def statusCheck (s : String) : Bool :=
  ["Started", "Processing", "In Progress", "Completed"].contains s

/-- The action_type CHECK constraint on public.logs: the value must be
one of transform, regenerate, create, update. -/
def actionTypeCheck (a : String) : Bool :=
  ["transform", "regenerate", "create", "update"].contains a

/-- EXISTS (SELECT 1 FROM sessions WHERE sessions.id = sid AND
sessions.user_id = auth.uid()) subquery used by the composite_faces and
logs policies. -/
def ownsSession (db : DB) (uid : UserId) (sid : SessionId) : Bool :=
  db.sessions.any (fun s => s.id == sid && s.user_id == uid)

/-- Policy "Users can view their own sessions": USING (auth.uid() = user_id). -/
def sessionsSelectPolicy (uid : UserId) (s : Session) : Bool :=
  uid == s.user_id

/-- Policy "Users can create their own sessions": WITH CHECK (auth.uid() = user_id). -/
def sessionsInsertPolicy (uid : UserId) (s : Session) : Bool :=
  uid == s.user_id

/-- Policy "Users can update their own sessions": USING (auth.uid() = user_id). -/
def sessionsUpdatePolicy (uid : UserId) (s : Session) : Bool :=
  uid == s.user_id

/-- Policy "Users can delete their own sessions": USING (auth.uid() = user_id). -/
def sessionsDeletePolicy (uid : UserId) (s : Session) : Bool :=
  uid == s.user_id

/-- Policy "Users can view faces from their sessions". -/
def compositeFacesSelectPolicy (db : DB) (uid : UserId) (f : CompositeFace) : Bool :=
  ownsSession db uid f.session_id

/-- Policy "Users can create faces for their sessions". -/
def compositeFacesInsertPolicy (db : DB) (uid : UserId) (f : CompositeFace) : Bool :=
  ownsSession db uid f.session_id

/-- No UPDATE policy exists on composite_faces and RLS is enabled, so
Postgres denies every row for UPDATE. -/
def compositeFacesUpdatePolicy (_ : UserId) (_ : CompositeFace) : Bool :=
  false

/-- No DELETE policy exists on composite_faces and RLS is enabled, so
Postgres denies every row for DELETE. -/
def compositeFacesDeletePolicy (_ : UserId) (_ : CompositeFace) : Bool :=
  false

/-- Policy "Users can view logs from their sessions". -/
def logsSelectPolicy (db : DB) (uid : UserId) (l : Log) : Bool :=
  ownsSession db uid l.session_id

/-- Policy "Users can create logs for their sessions". -/
def logsInsertPolicy (db : DB) (uid : UserId) (l : Log) : Bool :=
  ownsSession db uid l.session_id

/-- No UPDATE policy exists on logs and RLS is enabled, so Postgres
denies every row for UPDATE. -/
def logsUpdatePolicy (_ : UserId) (_ : Log) : Bool :=
  false

/-- No DELETE policy exists on logs and RLS is enabled, so Postgres
denies every row for DELETE. -/
def logsDeletePolicy (_ : UserId) (_ : Log) : Bool :=
  false

/-- Rows of sessions visible to a SELECT issued by uid under RLS. -/
def visibleSessions (uid : UserId) (db : DB) : List Session :=
  db.sessions.filter (sessionsSelectPolicy uid)

/-- Rows of composite_faces visible to a SELECT issued by uid under RLS. -/
def visibleCompositeFaces (uid : UserId) (db : DB) : List CompositeFace :=
  db.composite_faces.filter (compositeFacesSelectPolicy db uid)

/-- Rows of logs visible to a SELECT issued by uid under RLS. -/
def visibleLogs (uid : UserId) (db : DB) : List Log :=
  db.logs.filter (logsSelectPolicy db uid)

/-- Errors a SQL statement can fail with in this model. -/
inductive DBError where
  | permissionDenied
  | checkViolation
  | fkViolation
deriving DecidableEq, Repr

/-- Payload of a supabase sessions .update call: each field is either
supplied or omitted. -/
structure SessionUpdate where
  raw_input : Option (Option String)
  status : Option String
deriving DecidableEq, Repr

/-- Apply an update payload to one row; the update_sessions_updated_at
trigger sets NEW.updated_at = now() on every UPDATE, whatever the
supplied fields are. -/
def applySessionUpdate (u : SessionUpdate) (now : Time) (s : Session) : Session :=
  { s with
    raw_input := u.raw_input.getD s.raw_input
    status := u.status.getD s.status
    updated_at := now }

/-- Row transformation of an UPDATE on sessions: a row is rewritten when
its id matches and the RLS policy passes, and kept as is otherwise. -/
def sessUpdFun (uid : UserId) (sid : SessionId) (u : SessionUpdate)
    (now : Time) (s : Session) : Session :=
  if s.id == sid && sessionsUpdatePolicy uid s then
    applySessionUpdate u now s
  else s

/-- UPDATE public.sessions SET ... WHERE id = sid, as issued by uid:
RLS keeps only rows passing the UPDATE policy, the trigger refreshes
updated_at, and the status CHECK constraint aborts the whole statement
if any updated row violates it. -/
def updateSessions (uid : UserId) (db : DB) (sid : SessionId)
    (u : SessionUpdate) (now : Time) : Except DBError DB :=
  let touched := db.sessions.filter
    (fun s => s.id == sid && sessionsUpdatePolicy uid s)
  if touched.all (fun s => statusCheck (applySessionUpdate u now s).status) then
    Except.ok { db with sessions := db.sessions.map (sessUpdFun uid sid u now) }
  else
    Except.error DBError.checkViolation

/-- DELETE FROM public.sessions WHERE id = sid, as issued by uid, with
the ON DELETE CASCADE into composite_faces and logs. -/
def deleteSessions (uid : UserId) (db : DB) (sid : SessionId) : DB :=
  let removed := db.sessions.filter
    (fun s => s.id == sid && sessionsDeletePolicy uid s)
  let keptSessions := db.sessions.filter
    (fun s => !(s.id == sid && sessionsDeletePolicy uid s))
  let keptFaces := db.composite_faces.filter
    (fun f => !(removed.any (fun s => s.id == f.session_id)))
  let keptLogs := db.logs.filter
    (fun l => !(removed.any (fun s => s.id == l.session_id)))
  { db with sessions := keptSessions, composite_faces := keptFaces, logs := keptLogs }

/-- INSERT INTO public.sessions, as issued by uid. -/
def insertSession (uid : UserId) (db : DB) (s : Session) : Except DBError DB :=
  if !(sessionsInsertPolicy uid s) then Except.error DBError.permissionDenied
  else if !(statusCheck s.status) then Except.error DBError.checkViolation
  else Except.ok { db with sessions := db.sessions ++ [s] }

/-- INSERT INTO public.composite_faces, as issued by uid.  There is no
uniqueness constraint on (session_id, version). -/
def insertCompositeFace (uid : UserId) (db : DB) (f : CompositeFace) :
    Except DBError DB :=
  if !(compositeFacesInsertPolicy db uid f) then Except.error DBError.permissionDenied
  else if !(db.sessions.any (fun s => s.id == f.session_id)) then
    Except.error DBError.fkViolation
  else Except.ok { db with composite_faces := db.composite_faces ++ [f] }

/-- INSERT INTO public.logs, as issued by uid. -/
def insertLog (uid : UserId) (db : DB) (l : Log) : Except DBError DB :=
  if !(logsInsertPolicy db uid l) then Except.error DBError.permissionDenied
  else if !(db.sessions.any (fun s => s.id == l.session_id)) then
    Except.error DBError.fkViolation
  else if !(actionTypeCheck l.action_type) then Except.error DBError.checkViolation
  else Except.ok { db with logs := db.logs ++ [l] }

/-- UPDATE on public.logs issued by uid: RLS has no UPDATE policy on
logs, so no row is touched. -/
def updateLogs (uid : UserId) (db : DB) (f : Log → Log) : DB :=
  let newLogs := db.logs.map (fun l => if logsUpdatePolicy uid l then f l else l)
  { db with logs := newLogs }

/-- DELETE on public.logs issued by uid: RLS has no DELETE policy on
logs, so no row is removed. -/
def deleteLogs (uid : UserId) (db : DB) (p : Log → Bool) : DB :=
  let newLogs := db.logs.filter (fun l => !(logsDeletePolicy uid l && p l))
  { db with logs := newLogs }

/-- UPDATE on public.composite_faces issued by uid: RLS has no UPDATE
policy on composite_faces, so no row is touched. -/
def updateCompositeFaces (uid : UserId) (db : DB) (f : CompositeFace → CompositeFace) : DB :=
  let newFaces := db.composite_faces.map
    (fun c => if compositeFacesUpdatePolicy uid c then f c else c)
  { db with composite_faces := newFaces }

/-- DELETE on public.composite_faces issued by uid: RLS has no DELETE
policy on composite_faces, so no row is removed. -/
def deleteCompositeFaces (uid : UserId) (db : DB) (p : CompositeFace → Bool) : DB :=
  let newFaces := db.composite_faces.filter
    (fun c => !(compositeFacesDeletePolicy uid c && p c))
  { db with composite_faces := newFaces }

/-- The sessions PRIMARY KEY: no two rows share an id. -/
def sessionIdsUnique (db : DB) : Prop :=
  db.sessions.Pairwise (fun a b => a.id ≠ b.id)

instance (db : DB) : Decidable (sessionIdsUnique db) :=
  inferInstanceAs (Decidable (List.Pairwise _ db.sessions))

/-- ORDER BY started_at DESC ordering on sessions. -/
def sessionDescR (a b : Session) : Prop :=
  b.started_at ≤ a.started_at

instance : DecidableRel sessionDescR :=
  fun a b => inferInstanceAs (Decidable (b.started_at ≤ a.started_at))

instance : IsTotal Session sessionDescR :=
  ⟨fun a b => le_total b.started_at a.started_at⟩

instance : IsTrans Session sessionDescR :=
  ⟨fun _ _ _ h1 h2 => le_trans h2 h1⟩

/-- ORDER BY version DESC ordering on composite faces. -/
def faceDescR (a b : CompositeFace) : Prop :=
  b.version ≤ a.version

instance : DecidableRel faceDescR :=
  fun a b => inferInstanceAs (Decidable (b.version ≤ a.version))

instance : IsTotal CompositeFace faceDescR :=
  ⟨fun a b => le_total b.version a.version⟩

instance : IsTrans CompositeFace faceDescR :=
  ⟨fun _ _ _ h1 h2 => le_trans h2 h1⟩

/-- Dashboard.fetchSessions: SELECT * FROM sessions WHERE user_id = uid
ORDER BY started_at DESC, run under RLS as uid. -/
def fetchSessions (uid : UserId) (db : DB) : List Session :=
  ((visibleSessions uid db).filter (fun s => s.user_id == uid)).insertionSort
    sessionDescR

/-- Index.fetchSession face query: SELECT * FROM composite_faces WHERE
session_id = sid ORDER BY version DESC LIMIT 1, then .single(), run
under RLS as uid. -/
def latestCompositeFace (uid : UserId) (sid : SessionId) (db : DB) :
    Option CompositeFace :=
  ((((visibleCompositeFaces uid db).filter
      (fun f => f.session_id == sid)).insertionSort faceDescR).take 1).head?

/-- JSON body field generated_image of the backend response. -/
structure GenImage where
  category : String
  image : String
deriving DecidableEq, Repr

/-- Outcome of the fetch to the external generation service in
handleGenerate: the fetch itself can throw, the response can be
non-ok (for example HTTP 500), or it succeeds with a text and an
optional generated image. -/
inductive BackendResult where
  | fetchFailed
  | httpError (text : String)
  | httpOk (text : String) (generated_image : Option GenImage)
deriving DecidableEq, Repr

/-- Collapse a statement result whose error the caller ignores (a bare
await with no error check): on error the database is unchanged. -/
def exceptToDB (db : DB) : Except DBError DB → DB
  | Except.ok db2 => db2
  | Except.error _ => db

/-- What handleGenerate leaves behind: the database and which toast
notifications were shown. -/
structure GenOutcome where
  db : DB
  errorToast : Bool
  successToast : Bool
  infoToast : Bool
deriving DecidableEq, Repr

/-- handleGenerate of the workspace page (unnamed part_001), issued by
uid on session sid with a fresh log row id, a fresh face row id and the
current time:
1. update the session to raw_input = description, status = "Processing";
   on error show a toast and return;
2. insert a log row (error ignored);
3. call the backend; on failure show an error toast and attempt to set
   status = "Error" (error ignored);
4. on success show a success toast if the image category is "eyes",
   else an info toast; set status = "In Progress" (error ignored) and
   insert a composite_faces row whose version is
   (session?.version || 0) + 1 — the sessions row has no version
   column, so this always evaluates to 0 + 1. -/
def handleGenerate (uid : UserId) (sid : SessionId) (description : String)
    (resp : BackendResult) (logId faceId : RowId) (now : Time) (db : DB) :
    GenOutcome :=
  match updateSessions uid db sid ⟨some (some description), some "Processing"⟩ now with
  | Except.error _ => ⟨db, true, false, false⟩
  | Except.ok db1 =>
    let db2 := exceptToDB db1
      (insertLog uid db1 ⟨logId, sid, "create", "Input: " ++ description, now⟩)
    match resp with
    | BackendResult.fetchFailed =>
      let db3 := exceptToDB db2 (updateSessions uid db2 sid ⟨none, some "Error"⟩ now)
      ⟨db3, true, false, false⟩
    | BackendResult.httpError _ =>
      let db3 := exceptToDB db2 (updateSessions uid db2 sid ⟨none, some "Error"⟩ now)
      ⟨db3, true, false, false⟩
    | BackendResult.httpOk _ img =>
      let eyes := match img with
        | some g => g.category == "eyes"
        | none => false
      let db3 := exceptToDB db2
        (updateSessions uid db2 sid ⟨none, some "In Progress"⟩ now)
      let db4 := exceptToDB db3
        (insertCompositeFace uid db3
          ⟨faceId, sid, some "generated_in_memory", 0 + 1, now⟩)
      ⟨db4, false, eyes, !eyes⟩

/-- Row of auth.users as far as the signup trigger reads it: its id and
the full_name key of raw_user_meta_data. -/
structure AuthUser where
  id : UserId
  raw_user_meta_data_full_name : Option String
deriving DecidableEq, Repr

/-- handle_new_user trigger body: INSERT INTO public.profiles (id,
full_name) VALUES (new.id, COALESCE of the full_name metadata key and
the literal "User"). -/
def handle_new_user (u : AuthUser) (now : Time) : Profile :=
  ⟨u.id, some (u.raw_user_meta_data_full_name.getD "User"), now⟩

/-- Registering an auth identity: the on_auth_user_created trigger fires
after the INSERT on auth.users and adds the profile row. -/
def signUpUser (db : DB) (u : AuthUser) (now : Time) : DB :=
  { db with profiles := db.profiles ++ [handle_new_user u now] }

/-! CanvasPanel zoom handlers (CanvasPanel.tsx). -/

/-- One click on a zoom control of CanvasPanel. -/
inductive ZoomAction where
  | zoomIn
  | zoomOut
  | reset
deriving DecidableEq, Repr

/-- setZoom((prev) => Math.min(prev + 10, 200)). -/
def handleZoomIn (zoom : Int) : Int := min (zoom + 10) 200

/-- setZoom((prev) => Math.max(prev - 10, 50)). -/
def handleZoomOut (zoom : Int) : Int := max (zoom - 10) 50

/-- setZoom(100). -/
def handleReset (_ : Int) : Int := 100

/-- Dispatch one zoom control click. -/
def zoomStep (zoom : Int) : ZoomAction → Int
  | ZoomAction.zoomIn => handleZoomIn zoom
  | ZoomAction.zoomOut => handleZoomOut zoom
  | ZoomAction.reset => handleReset zoom

/-- useState(100). -/
def initialZoom : Int := 100

/-- Zoom level after a sequence of control clicks starting from the
initial state. -/
def runZoom (acts : List ZoomAction) : Int :=
  acts.foldl zoomStep initialZoom

theorem zoomStep_invariant (z : Int) (a : ZoomAction)
    (h : 50 ≤ z ∧ z ≤ 200 ∧ z % 10 = 0) :
    50 ≤ zoomStep z a ∧ zoomStep z a ≤ 200 ∧ zoomStep z a % 10 = 0 := by
  cases a <;>
    simp only [zoomStep, handleZoomIn, handleZoomOut, handleReset] <;>
    omega

theorem foldl_zoom_invariant (acts : List ZoomAction) :
    ∀ z : Int, 50 ≤ z ∧ z ≤ 200 ∧ z % 10 = 0 →
      50 ≤ acts.foldl zoomStep z ∧ acts.foldl zoomStep z ≤ 200 ∧
        acts.foldl zoomStep z % 10 = 0 := by
  induction acts with
  | nil => intro z h; simpa using h
  | cons a rest ih =>
    intro z h
    simpa using ih (zoomStep z a) (zoomStep_invariant z a h)

/-- C10: the canvas zoom level starts at 100 and after any sequence of
zoom-in (adds 10, capped at 200), zoom-out (subtracts 10, floored at 50)
and reset (sets 100) operations always remains within the closed
interval from 50 to 200 and is always a multiple of 10. -/
theorem zoom_level_invariant (acts : List ZoomAction) :
    50 ≤ runZoom acts ∧ runZoom acts ≤ 200 ∧ runZoom acts % 10 = 0 :=
  foldl_zoom_invariant acts initialZoom (by decide)

/-! Helper lemmas. -/

theorem take_one_head (l : List α) : (l.take 1).head? = l.head? := by
  cases l <;> rfl

theorem session_unique_aux {l : List Session}
    (hl : l.Pairwise (fun a b => a.id ≠ b.id)) :
    ∀ {s r : Session}, s ∈ l → r ∈ l → r.id = s.id → r = s := by
  induction hl with
  | nil => intro s r hs; simp at hs
  | @cons a l2 hhead _ ih =>
    intro s r hs hr hid
    rcases List.mem_cons.mp hs with hsa | hs2
    · subst hsa
      rcases List.mem_cons.mp hr with hra | hr2
      · exact hra
      · exact absurd hid.symm (hhead r hr2)
    · rcases List.mem_cons.mp hr with hra | hr2
      · subst hra
        exact absurd hid (hhead s hs2)
      · exact ih hs2 hr2 hid

/-- A session row with the id of s, in a table whose ids are unique,
is s itself. -/
theorem session_eq_of_id_eq {db : DB} (hu : sessionIdsUnique db)
    {s r : Session} (hs : s ∈ db.sessions) (hr : r ∈ db.sessions)
    (hid : r.id = s.id) : r = s :=
  session_unique_aux hu hs hr hid

/-- C4: for every user, fetchSessions returns exactly the sessions whose
user_id is that user — a permutation of the filtered table, hence the
same rows with the same multiplicities — ordered by started_at
descending. -/
theorem fetchSessions_exact_and_sorted (uid : UserId) (db : DB) :
    (∀ s : Session, s ∈ fetchSessions uid db ↔
      s ∈ db.sessions ∧ s.user_id = uid) ∧
    List.Perm (fetchSessions uid db)
      (db.sessions.filter (fun s => s.user_id == uid)) ∧
    (fetchSessions uid db).Pairwise
      (fun a b => b.started_at ≤ a.started_at) := by
  refine ⟨?_, ?_, ?_⟩
  · intro s
    unfold fetchSessions visibleSessions sessionsSelectPolicy
    rw [List.mem_insertionSort, List.mem_filter, List.mem_filter]
    constructor
    · rintro ⟨⟨hmem, _⟩, h2⟩
      exact ⟨hmem, by simpa using h2⟩
    · rintro ⟨hmem, h⟩
      refine ⟨⟨hmem, ?_⟩, ?_⟩ <;> simp [h]
  · have hperm := List.perm_insertionSort sessionDescR
      ((visibleSessions uid db).filter (fun s => s.user_id == uid))
    unfold fetchSessions
    refine hperm.trans ?_
    have hfe : (visibleSessions uid db).filter (fun s => s.user_id == uid) =
        db.sessions.filter (fun s => s.user_id == uid) := by
      unfold visibleSessions
      rw [List.filter_filter]
      apply List.filter_congr
      intro r _
      by_cases h : r.user_id = uid
      · simp [sessionsSelectPolicy, h]
      · simp [sessionsSelectPolicy, h]
    rw [hfe]
  · have h := List.sorted_insertionSort sessionDescR
      ((visibleSessions uid db).filter (fun s => s.user_id == uid))
    unfold fetchSessions
    exact h.imp (fun hab => hab)

/-- C6: the logs table is append-only: an insert leaves every prior row
in place and merely appends, and UPDATE and DELETE statements on logs,
having no row-level-security policy, touch no row for any caller. -/
theorem logs_append_only (u : UserId) (db : DB) (l : Log)
    (f : Log → Log) (p : Log → Bool) :
    ((exceptToDB db (insertLog u db l)).logs = db.logs ∨
      (exceptToDB db (insertLog u db l)).logs = db.logs ++ [l]) ∧
    updateLogs u db f = db ∧
    deleteLogs u db p = db := by
  refine ⟨?_, ?_, ?_⟩
  · unfold insertLog
    repeat' split
    all_goals simp [exceptToDB]
  · unfold updateLogs logsUpdatePolicy
    simp
  · unfold deleteLogs logsDeletePolicy
    simp

/-- An insert into composite_faces by the owner of the target session
succeeds and appends the row. -/
theorem insertCompositeFace_ok (u : UserId) (db : DB)
    (f : CompositeFace) (hown : ownsSession db u f.session_id = true) :
    insertCompositeFace u db f =
      Except.ok { db with composite_faces := db.composite_faces ++ [f] } := by
  have hfk : db.sessions.any (fun s => s.id == f.session_id) = true := by
    rcases List.any_eq_true.mp hown with ⟨s, hs, hprop⟩
    refine List.any_eq_true.mpr ⟨s, hs, ?_⟩
    exact (Bool.and_elim_left hprop)
  unfold insertCompositeFace compositeFacesInsertPolicy
  rw [hown, hfk]
  rfl

/-- C8: insertCompositeFace performs no uniqueness check on version:
whenever the caller owns the target session, the insert succeeds and
appends the row, whatever version it carries, even one already present
for that session. -/
theorem insertCompositeFace_no_version_check (u : UserId) (db : DB)
    (f : CompositeFace) (hown : ownsSession db u f.session_id = true) :
    insertCompositeFace u db f =
      Except.ok { db with composite_faces := db.composite_faces ++ [f] } :=
  insertCompositeFace_ok u db f hown

/-- Database used by the duplicate-version witness: session 1 belongs to
user 10 and already has a face with version 3. -/
def dupDB : DB :=
  ⟨[], [⟨1, 10, none, "Started", 0, 0⟩], [⟨50, 1, none, 3, 0⟩], []⟩

theorem insertCompositeFace_no_version_check_witness :
    (ownsSession dupDB 10 1 = true ∧
      (⟨50, 1, none, 3, 0⟩ : CompositeFace) ∈ dupDB.composite_faces) ∧
    insertCompositeFace 10 dupDB ⟨51, 1, none, 3, 9⟩ =
      Except.ok ⟨[], [⟨1, 10, none, "Started", 0, 0⟩],
        [⟨50, 1, none, 3, 0⟩, ⟨51, 1, none, 3, 9⟩], []⟩ :=
  ⟨⟨by decide, by decide⟩,
    insertCompositeFace_no_version_check 10 dupDB ⟨51, 1, none, 3, 9⟩ (by decide)⟩

/-- C9: registering an auth identity whose id is not yet among the
profiles creates exactly one profile row with that id, whose full_name
is the metadata full_name, or "User" when that metadata is absent. -/
theorem signup_creates_single_profile (db : DB) (u : AuthUser) (now : Time)
    (hfresh : ∀ p ∈ db.profiles, p.id ≠ u.id) :
    (signUpUser db u now).profiles.filter (fun p => p.id == u.id) =
      [⟨u.id, some (u.raw_user_meta_data_full_name.getD "User"), now⟩] := by
  unfold signUpUser handle_new_user
  rw [List.filter_append]
  have hold : db.profiles.filter (fun p => p.id == u.id) = [] := by
    rw [List.filter_eq_nil_iff]
    intro p hp
    simpa using hfresh p hp
  rw [hold]
  simp

theorem signup_creates_single_profile_witness :
    (∀ p ∈ (⟨[⟨3, some "Ana", 0⟩], [], [], []⟩ : DB).profiles, p.id ≠ 5) ∧
    (signUpUser ⟨[⟨3, some "Ana", 0⟩], [], [], []⟩ ⟨5, none⟩ 4).profiles.filter
        (fun p => p.id == 5) = [⟨5, some "User", 4⟩] :=
  ⟨by decide,
    signup_creates_single_profile ⟨[⟨3, some "Ana", 0⟩], [], [], []⟩ ⟨5, none⟩ 4
      (by decide)⟩

/-- Under row-level security, the owner of a session sees every face row
of that session, so the two filters collapse to the session_id test. -/
theorem visibleFaces_filter_of_owner (uid : UserId) (sid : SessionId)
    (db : DB) (hown : ownsSession db uid sid = true) :
    (visibleCompositeFaces uid db).filter (fun f => f.session_id == sid) =
      db.composite_faces.filter (fun f => f.session_id == sid) := by
  unfold visibleCompositeFaces compositeFacesSelectPolicy
  rw [List.filter_filter]
  apply List.filter_congr
  intro f _
  by_cases h : f.session_id = sid
  · simp [h, hown]
  · simp [h]

/-- C5: for the owner of a session, latestCompositeFace returns none
exactly when the session has no face rows, and otherwise returns a face
row of that session whose version is maximal among them. -/
theorem latestCompositeFace_max_version (uid : UserId) (sid : SessionId)
    (db : DB) (hown : ownsSession db uid sid = true) :
    (latestCompositeFace uid sid db = none ↔
      ∀ f ∈ db.composite_faces, f.session_id ≠ sid) ∧
    ∀ f : CompositeFace, latestCompositeFace uid sid db = some f →
      f ∈ db.composite_faces ∧ f.session_id = sid ∧
        ∀ g ∈ db.composite_faces, g.session_id = sid →
          g.version ≤ f.version := by
  have hL : latestCompositeFace uid sid db =
      ((db.composite_faces.filter
        (fun f => f.session_id == sid)).insertionSort faceDescR).head? := by
    unfold latestCompositeFace
    rw [visibleFaces_filter_of_owner uid sid db hown, take_one_head]
  have hsorted := List.sorted_insertionSort faceDescR
    (db.composite_faces.filter (fun f => f.session_id == sid))
  constructor
  · rw [hL, List.head?_eq_none_iff]
    constructor
    · intro hnil f hf hsid
      have hmem : f ∈ db.composite_faces.filter
          (fun g => g.session_id == sid) :=
        List.mem_filter.mpr ⟨hf, by simp [hsid]⟩
      rw [← List.mem_insertionSort faceDescR, hnil] at hmem
      simp at hmem
    · intro hnone
      have hnil : db.composite_faces.filter (fun g => g.session_id == sid) = [] := by
        rw [List.filter_eq_nil_iff]
        intro f hf
        simpa using hnone f hf
      rw [hnil]
      simp
  · intro f hf
    rw [hL] at hf
    rcases hms : (db.composite_faces.filter
        (fun g => g.session_id == sid)).insertionSort faceDescR with _ | ⟨x, xs⟩
    · rw [hms] at hf
      simp at hf
    · rw [hms] at hf
      simp only [List.head?_cons, Option.some.injEq] at hf
      have hfm : f ∈ db.composite_faces.filter
          (fun g => g.session_id == sid) := by
        rw [← List.mem_insertionSort faceDescR, hms, ← hf]
        exact List.mem_cons_self x xs
      have hfm2 := List.mem_filter.mp hfm
      refine ⟨hfm2.1, by simpa using hfm2.2, ?_⟩
      intro g hg hgsid
      have hgmem : g ∈ (db.composite_faces.filter
          (fun h2 => h2.session_id == sid)).insertionSort faceDescR := by
        rw [List.mem_insertionSort]
        exact List.mem_filter.mpr ⟨hg, by simp [hgsid]⟩
      rw [hms] at hgmem
      rcases List.mem_cons.mp hgmem with hgx | hgxs
      · rw [hgx, ← hf]
      · rw [hms] at hsorted
        have hle := List.rel_of_pairwise_cons hsorted hgxs
        rw [← hf]
        exact hle

/-- Database used by the latestCompositeFace witness: session 1 belongs
to user 10 and has faces with versions 1, 3 and 2; session 2 has an
unrelated face. -/
def facesDB : DB :=
  ⟨[], [⟨1, 10, none, "Started", 0, 0⟩, ⟨2, 11, none, "Started", 0, 0⟩],
    [⟨50, 1, none, 1, 0⟩, ⟨51, 1, none, 3, 0⟩, ⟨52, 1, none, 2, 0⟩,
      ⟨53, 2, none, 9, 0⟩], []⟩

theorem latestCompositeFace_max_version_witness :
    (ownsSession facesDB 10 1 = true ∧
      latestCompositeFace 10 1 facesDB = some ⟨51, 1, none, 3, 0⟩) ∧
    ((⟨51, 1, none, 3, 0⟩ : CompositeFace) ∈ facesDB.composite_faces ∧
      (1 : SessionId) = 1 ∧
      ∀ g ∈ facesDB.composite_faces, g.session_id = 1 →
        g.version ≤ (3 : Int)) :=
  ⟨⟨by decide, by decide⟩,
    (latestCompositeFace_max_version 10 1 facesDB (by decide)).2
      ⟨51, 1, none, 3, 0⟩ (by decide)⟩

/-- C7: whenever an UPDATE on sessions succeeds, every row it actually
updated (id matched and the RLS policy passed) carries
updated_at = now in the result, whatever fields were supplied. -/
theorem updateSessions_refreshes_updated_at (uid : UserId) (db : DB)
    (sid : SessionId) (u : SessionUpdate) (now : Time) (db2 : DB)
    (h : updateSessions uid db sid u now = Except.ok db2) :
    ∀ r ∈ db2.sessions, r.id = sid → sessionsUpdatePolicy uid r = true →
      r.updated_at = now := by
  simp only [updateSessions] at h
  split at h
  case isFalse => exact absurd h (by simp)
  case isTrue hall =>
    simp only [Except.ok.injEq] at h
    subst h
    intro r hr hid hpol
    simp only [List.mem_map] at hr
    rcases hr with ⟨q, hq, hqr⟩
    unfold sessUpdFun at hqr
    by_cases hcond : (q.id == sid && sessionsUpdatePolicy uid q) = true
    · rw [if_pos hcond] at hqr
      rw [← hqr]
      rfl
    · rw [if_neg hcond] at hqr
      subst hqr
      exact absurd (by simp [hid, hpol]) hcond

/-- Database used by the updated_at witness. -/
def updDB : DB :=
  ⟨[], [⟨1, 10, none, "Started", 2, 2⟩, ⟨2, 10, none, "Started", 3, 3⟩], [], []⟩

/-- Result of updating session 1 of updDB at time 9. -/
def updDB2 : DB :=
  ⟨[], [⟨1, 10, some "hi", "Completed", 2, 9⟩, ⟨2, 10, none, "Started", 3, 3⟩],
    [], []⟩

theorem updateSessions_refreshes_updated_at_witness :
    updateSessions 10 updDB 1 ⟨some (some "hi"), some "Completed"⟩ 9 =
      Except.ok updDB2 ∧
    ∀ r ∈ updDB2.sessions, r.id = 1 → sessionsUpdatePolicy 10 r = true →
      r.updated_at = 9 :=
  ⟨by rfl,
    updateSessions_refreshes_updated_at 10 updDB 1
      ⟨some (some "hi"), some "Completed"⟩ 9 updDB2 (by rfl)⟩

/-- A user distinct from the owner of a session does not own it, when
session ids are unique. -/
theorem not_ownsSession_of_ne (db : DB) (u : UserId) (s : Session)
    (hu : sessionIdsUnique db) (hs : s ∈ db.sessions) (hne : s.user_id ≠ u) :
    ownsSession db u s.id = false := by
  rw [Bool.eq_false_iff]
  intro hown
  rcases List.any_eq_true.mp hown with ⟨r, hr, hprop⟩
  simp only [Bool.and_eq_true, beq_iff_eq] at hprop
  have := session_eq_of_id_eq hu hs hr hprop.1
  subst this
  exact hne hprop.2

/-- C1: a user distinct from the owner of a session can neither read nor
write that session, nor read or write any composite face or log row of
that session: SELECT hides the rows, UPDATE and DELETE touch nothing,
and INSERT of dependent rows is rejected by the WITH CHECK policies
(UPDATE and DELETE on composite_faces and logs have no policy at all and
touch nothing for any caller). -/
theorem rls_rejects_non_owner (db : DB) (u : UserId) (s : Session)
    (hu : sessionIdsUnique db) (hs : s ∈ db.sessions) (hne : s.user_id ≠ u) :
    s ∉ visibleSessions u db ∧
    (∀ upd now, updateSessions u db s.id upd now = Except.ok db) ∧
    deleteSessions u db s.id = db ∧
    (∀ f ∈ db.composite_faces, f.session_id = s.id →
      f ∉ visibleCompositeFaces u db) ∧
    (∀ f : CompositeFace, f.session_id = s.id →
      insertCompositeFace u db f = Except.error DBError.permissionDenied) ∧
    (∀ g : CompositeFace → CompositeFace, updateCompositeFaces u db g = db) ∧
    (∀ p : CompositeFace → Bool, deleteCompositeFaces u db p = db) ∧
    (∀ l ∈ db.logs, l.session_id = s.id → l ∉ visibleLogs u db) ∧
    (∀ l : Log, l.session_id = s.id →
      insertLog u db l = Except.error DBError.permissionDenied) ∧
    (∀ g : Log → Log, updateLogs u db g = db) ∧
    (∀ p : Log → Bool, deleteLogs u db p = db) := by
  have hno : ownsSession db u s.id = false :=
    not_ownsSession_of_ne db u s hu hs hne
  have hrow : ∀ r ∈ db.sessions, (r.id == s.id && (u == r.user_id)) = false := by
    intro r hr
    rw [Bool.eq_false_iff]
    intro hcond
    simp only [Bool.and_eq_true, beq_iff_eq] at hcond
    have := session_eq_of_id_eq hu hs hr hcond.1
    subst this
    exact hne hcond.2.symm
  refine ⟨?_, ?_, ?_, ?_, ?_, ?_, ?_, ?_, ?_, ?_, ?_⟩
  · intro hmem
    have h2 := (List.mem_filter.mp hmem).2
    simp only [sessionsSelectPolicy, beq_iff_eq] at h2
    exact hne h2.symm
  · intro upd now
    have hfil : db.sessions.filter
        (fun r => r.id == s.id && sessionsUpdatePolicy u r) = [] :=
      List.filter_eq_nil_iff.mpr
        (fun r hr => by simp [sessionsUpdatePolicy, hrow r hr])
    have hmap : db.sessions.map (sessUpdFun u s.id upd now) = db.sessions := by
      rw [List.map_congr_left (g := id) (fun r hr => by
        simp [sessUpdFun, sessionsUpdatePolicy, hrow r hr])]
      exact List.map_id db.sessions
    simp [updateSessions, hfil, hmap]
  · simp only [deleteSessions, sessionsDeletePolicy]
    have hfil : db.sessions.filter (fun r => r.id == s.id && (u == r.user_id)) = [] :=
      List.filter_eq_nil_iff.mpr (fun r hr => by simp [hrow r hr])
    rw [hfil]
    have h1 : db.sessions.filter
        (fun r => !(r.id == s.id && (u == r.user_id))) = db.sessions :=
      List.filter_eq_self.mpr (fun r hr => by simp [hrow r hr])
    rw [h1]
    simp
  · intro f _ hfs hmem
    have h2 := (List.mem_filter.mp hmem).2
    rw [compositeFacesSelectPolicy, hfs, hno] at h2
    exact Bool.false_ne_true h2
  · intro f hfs
    simp [insertCompositeFace, compositeFacesInsertPolicy, hfs, hno]
  · intro g
    simp [updateCompositeFaces, compositeFacesUpdatePolicy]
  · intro p
    simp [deleteCompositeFaces, compositeFacesDeletePolicy]
  · intro l _ hls hmem
    have h2 := (List.mem_filter.mp hmem).2
    rw [logsSelectPolicy, hls, hno] at h2
    exact Bool.false_ne_true h2
  · intro l hls
    simp [insertLog, logsInsertPolicy, hls, hno]
  · intro g
    simp [updateLogs, logsUpdatePolicy]
  · intro p
    simp [deleteLogs, logsDeletePolicy]

/-- Database used by the isolation witness: session 1 with a face and a
log row, all owned by user 10; user 20 is the intruder. -/
def isoDB : DB :=
  ⟨[], [⟨1, 10, none, "Started", 0, 0⟩], [⟨50, 1, none, 1, 0⟩],
    [⟨70, 1, "create", "made", 0⟩]⟩

theorem rls_rejects_non_owner_witness :
    (⟨1, 10, none, "Started", 0, 0⟩ : Session) ∉ visibleSessions 20 isoDB ∧
    updateSessions 20 isoDB 1 ⟨none, some "Completed"⟩ 5 = Except.ok isoDB ∧
    deleteSessions 20 isoDB 1 = isoDB ∧
    (⟨50, 1, none, 1, 0⟩ : CompositeFace) ∉ visibleCompositeFaces 20 isoDB ∧
    insertCompositeFace 20 isoDB ⟨51, 1, none, 2, 5⟩ =
      Except.error DBError.permissionDenied ∧
    (⟨70, 1, "create", "made", 0⟩ : Log) ∉ visibleLogs 20 isoDB ∧
    insertLog 20 isoDB ⟨71, 1, "create", "again", 5⟩ =
      Except.error DBError.permissionDenied := by
  obtain ⟨h1, h2, h3, h4, h5, _, _, h8, h9, _, _⟩ :=
    rls_rejects_non_owner isoDB 20 ⟨1, 10, none, "Started", 0, 0⟩
      (by decide) (by decide) (by decide)
  exact ⟨h1, h2 ⟨none, some "Completed"⟩ 5, h3,
    h4 ⟨50, 1, none, 1, 0⟩ (by decide) rfl,
    h5 ⟨51, 1, none, 2, 5⟩ rfl,
    h8 ⟨70, 1, "create", "made", 0⟩ (by decide) rfl,
    h9 ⟨71, 1, "create", "again", 5⟩ rfl⟩

/-! Step lemmas for handleGenerate. -/

theorem sessUpdFun_id_eq (uid : UserId) (sid : SessionId) (u : SessionUpdate)
    (now : Time) (r : Session) : (sessUpdFun uid sid u now r).id = r.id := by
  unfold sessUpdFun
  split <;> rfl

theorem sessUpdFun_user_eq (uid : UserId) (sid : SessionId) (u : SessionUpdate)
    (now : Time) (r : Session) :
    (sessUpdFun uid sid u now r).user_id = r.user_id := by
  unfold sessUpdFun
  split <;> rfl

theorem updateSessions_good_status (uid : UserId) (db : DB) (sid : SessionId)
    (raw : Option (Option String)) (st : String) (now : Time)
    (hst : statusCheck st = true) :
    updateSessions uid db sid ⟨raw, some st⟩ now =
      Except.ok { db with sessions := db.sessions.map (sessUpdFun uid sid ⟨raw, some st⟩ now) } := by
  have hall : ((db.sessions.filter
      (fun s => s.id == sid && sessionsUpdatePolicy uid s)).all
      (fun s => statusCheck (applySessionUpdate ⟨raw, some st⟩ now s).status))
      = true := by
    apply List.all_eq_true.mpr
    intro r _
    simpa [applySessionUpdate] using hst
  simp [updateSessions, hall]

theorem updateSessions_bad_status (uid : UserId) (db : DB) (sid : SessionId)
    (raw : Option (Option String)) (st : String) (now : Time) (r : Session)
    (hr : r ∈ db.sessions) (hid : (r.id == sid) = true)
    (hpol : sessionsUpdatePolicy uid r = true) (hbad : statusCheck st = false) :
    updateSessions uid db sid ⟨raw, some st⟩ now =
      Except.error DBError.checkViolation := by
  have hney : ¬(((db.sessions.filter
      (fun s => s.id == sid && sessionsUpdatePolicy uid s)).all
      (fun s => statusCheck (applySessionUpdate ⟨raw, some st⟩ now s).status))
      = true) := by
    intro hall
    have hmem : r ∈ db.sessions.filter
        (fun s => s.id == sid && sessionsUpdatePolicy uid s) :=
      List.mem_filter.mpr ⟨hr, by simp [hid, hpol]⟩
    have hck := List.all_eq_true.mp hall r hmem
    rw [show (applySessionUpdate ⟨raw, some st⟩ now r).status = st from rfl,
      hbad] at hck
    exact Bool.false_ne_true hck
  simp [updateSessions, hney]

theorem insertLog_preserves (u : UserId) (db : DB) (l : Log) :
    (exceptToDB db (insertLog u db l)).sessions = db.sessions ∧
    (exceptToDB db (insertLog u db l)).composite_faces = db.composite_faces := by
  unfold insertLog
  repeat' split
  all_goals simp [exceptToDB]

/-- Database after step 1 of handleGenerate: raw_input = description and
status = "Processing" on the target session. -/
def step1DB (u : UserId) (sid : SessionId) (d : String) (now : Time)
    (db : DB) : DB :=
  let newRows := db.sessions.map (sessUpdFun u sid ⟨some (some d), some "Processing"⟩ now)
  { db with sessions := newRows }

theorem step1_ok (u : UserId) (db : DB) (sid : SessionId) (d : String)
    (now : Time) :
    updateSessions u db sid ⟨some (some d), some "Processing"⟩ now =
      Except.ok (step1DB u sid d now db) :=
  updateSessions_good_status u db sid (some (some d)) "Processing" now (by decide)

/-- Database after step 5 of handleGenerate: status = "In Progress" on
the target session. -/
def step5DB (u : UserId) (sid : SessionId) (now : Time) (db : DB) : DB :=
  let newRows := db.sessions.map (sessUpdFun u sid ⟨none, some "In Progress"⟩ now)
  { db with sessions := newRows }

theorem step5_ok (u : UserId) (db : DB) (sid : SessionId) (now : Time) :
    updateSessions u db sid ⟨none, some "In Progress"⟩ now =
      Except.ok (step5DB u sid now db) :=
  updateSessions_good_status u db sid none "In Progress" now (by decide)

/-- After an UPDATE whose payload carries status = some st, every row of
the result whose id is the target id has status st, provided ids are
unique and the target session belongs to the caller. -/
theorem mapped_status (u : UserId) (db : DB) (s : Session) (sid : SessionId)
    (hsid : s.id = sid) (upd : SessionUpdate) (st : String)
    (hupd : upd.status = some st) (now : Time) (hu : sessionIdsUnique db)
    (hs : s ∈ db.sessions) (hown : s.user_id = u) :
    ∀ r ∈ db.sessions.map (sessUpdFun u sid upd now),
      r.id = sid → r.status = st := by
  intro r hr hid
  rcases List.mem_map.mp hr with ⟨q, hq, hqr⟩
  by_cases hc : (q.id == sid && sessionsUpdatePolicy u q) = true
  · rw [← hqr]
    unfold sessUpdFun
    rw [if_pos hc]
    simp [applySessionUpdate, hupd]
  · exfalso
    have hq_eq : q = r := by
      rw [← hqr]
      unfold sessUpdFun
      rw [if_neg hc]
    have hqid : q.id = s.id := by
      rw [hq_eq, hid, hsid]
    have hqs : q = s := session_eq_of_id_eq hu hs hq hqid
    subst hqs
    exact hc (by simp [sessionsUpdatePolicy, hown, hsid])

/-- The session ids stay pairwise distinct under the row transformation
of an UPDATE. -/
theorem unique_map_sessUpdFun (db : DB) (hu : sessionIdsUnique db)
    (u : UserId) (sid : SessionId) (upd : SessionUpdate) (now : Time) :
    (db.sessions.map (sessUpdFun u sid upd now)).Pairwise
      (fun a b => a.id ≠ b.id) := by
  rw [List.pairwise_map]
  exact hu.imp (fun h => by simpa [sessUpdFun_id_eq] using h)

/-- Database used by the failed-generation counterexample: one session,
owned by user 10, in state "Started". -/
def c2DB : DB :=
  ⟨[], [⟨1, 10, none, "Started", 0, 0⟩], [], []⟩

/-- Outcome of handleGenerate when the backend answers HTTP 500. -/
def c2Out : GenOutcome :=
  handleGenerate 10 1 "desc" (BackendResult.httpError "Internal Server Error")
    100 200 7 c2DB

/-- C2 counterexample: after a failed external call the session status is
"Processing", not "Error" — the catch branch attempts to set "Error" but
the status CHECK constraint rejects that value, so the claim that the
status is successfully set to "Error" is false. -/
theorem handleGenerate_error_counterexample :
    c2Out.db.sessions.map Session.status = ["Processing"] ∧
    (∀ r ∈ c2Out.db.sessions, r.status ≠ "Error") ∧
    c2Out.errorToast = true ∧
    c2Out.db.composite_faces = [] := by
  decide

/-- C2 (amended): when the external generation call fails, the session
status remains "Processing" (the attempted update to "Error" violates
the status CHECK constraint and is rejected), the user is shown a
failure notification, and no composite face row is created. -/
theorem handleGenerate_failure_leaves_processing (u : UserId) (db : DB)
    (s : Session) (d t : String) (logId faceId : RowId) (now : Time)
    (hu : sessionIdsUnique db) (hs : s ∈ db.sessions) (hown : s.user_id = u) :
    (∀ r ∈ (handleGenerate u s.id d (BackendResult.httpError t)
        logId faceId now db).db.sessions,
      r.id = s.id → r.status = "Processing") ∧
    (handleGenerate u s.id d (BackendResult.httpError t)
        logId faceId now db).errorToast = true ∧
    (handleGenerate u s.id d (BackendResult.httpError t)
        logId faceId now db).db.composite_faces = db.composite_faces := by
  simp only [handleGenerate, step1_ok]
  set D1 := step1DB u s.id d now db with hD1
  set LG : Log := ⟨logId, s.id, "create", "Input: " ++ d, now⟩ with hLG
  set D2 := exceptToDB D1 (insertLog u D1 LG) with hD2
  have hpres := insertLog_preserves u D1 LG
  rw [← hD2] at hpres
  have hmem1 : sessUpdFun u s.id ⟨some (some d), some "Processing"⟩ now s ∈
      D2.sessions := by
    rw [hpres.1, hD1]
    exact List.mem_map_of_mem _ hs
  have hfail := updateSessions_bad_status u D2 s.id none "Error" now
    (sessUpdFun u s.id ⟨some (some d), some "Processing"⟩ now s) hmem1
    (by simp [sessUpdFun_id_eq])
    (by simp [sessionsUpdatePolicy, sessUpdFun_user_eq, hown])
    (by decide)
  rw [hfail]
  refine ⟨?_, by trivial, ?_⟩
  · simp only [exceptToDB]
    intro r hr hid
    rw [hpres.1, hD1] at hr
    exact mapped_status u db s s.id rfl ⟨some (some d), some "Processing"⟩
      "Processing" rfl now hu hs hown r hr hid
  · simp only [exceptToDB]
    rw [hpres.2, hD1]
    rfl

/-- Database used by the C2 witness. -/
def c2wDB : DB :=
  ⟨[], [⟨1, 10, none, "Started", 0, 0⟩, ⟨2, 11, none, "Started", 0, 0⟩],
    [⟨50, 2, none, 1, 0⟩], []⟩

theorem handleGenerate_failure_leaves_processing_witness :
    (sessionIdsUnique c2wDB ∧
      (⟨1, 10, none, "Started", 0, 0⟩ : Session) ∈ c2wDB.sessions) ∧
    ((∀ r ∈ (handleGenerate 10 1 "desc" (BackendResult.httpError "boom")
        100 200 7 c2wDB).db.sessions, r.id = 1 → r.status = "Processing") ∧
      (handleGenerate 10 1 "desc" (BackendResult.httpError "boom")
        100 200 7 c2wDB).errorToast = true ∧
      (handleGenerate 10 1 "desc" (BackendResult.httpError "boom")
        100 200 7 c2wDB).db.composite_faces = c2wDB.composite_faces) :=
  ⟨⟨by decide, by decide⟩,
    handleGenerate_failure_leaves_processing 10 c2wDB
      ⟨1, 10, none, "Started", 0, 0⟩ "desc" "boom" 100 200 7
      (by decide) (by decide) rfl⟩

/-- Database used by the version counterexample: session 1 of user 10
already has a composite face with version 1. -/
def c3DB : DB :=
  ⟨[], [⟨1, 10, none, "Started", 0, 0⟩], [⟨50, 1, none, 1, 0⟩], []⟩

/-- Outcome of handleGenerate on c3DB when the backend succeeds with an
eyes image. -/
def c3Out : GenOutcome :=
  handleGenerate 10 1 "A 30-year-old man with short black hair and glasses"
    (BackendResult.httpOk "ok" (some ⟨"eyes", "<data>"⟩)) 100 200 7 c3DB

/-- C3 counterexample: the previous maximum version for session 1 is 1,
so the claim requires the new row to carry version 2; the code instead
inserts version 1 (the sessions row has no version column, so
(session?.version || 0) + 1 is always 1), and no version-2 row exists
afterwards. -/
theorem handleGenerate_version_counterexample :
    (∀ f ∈ c3DB.composite_faces, f.version ≤ 1) ∧
    (⟨50, 1, none, 1, 0⟩ : CompositeFace) ∈ c3DB.composite_faces ∧
    c3Out.db.composite_faces.map CompositeFace.version = [1, 1] ∧
    (∀ f ∈ c3Out.db.composite_faces, f.version ≠ 2) := by
  decide

/-- C3 (amended): when a description is submitted and the external call
succeeds, the session status becomes "In Progress" and a composite face
row for the session is appended whose version is always 1 — not the
previous maximum version plus one. -/
theorem handleGenerate_success_inserts_version_one (u : UserId) (db : DB)
    (s : Session) (d txt : String) (img : Option GenImage)
    (logId faceId : RowId) (now : Time)
    (hu : sessionIdsUnique db) (hs : s ∈ db.sessions) (hown : s.user_id = u) :
    (∀ r ∈ (handleGenerate u s.id d (BackendResult.httpOk txt img)
        logId faceId now db).db.sessions,
      r.id = s.id → r.status = "In Progress") ∧
    (handleGenerate u s.id d (BackendResult.httpOk txt img)
        logId faceId now db).db.composite_faces =
      db.composite_faces ++ [⟨faceId, s.id, some "generated_in_memory", 1, now⟩] := by
  simp only [handleGenerate, step1_ok, step5_ok]
  set D1 := step1DB u s.id d now db with hD1
  set LG : Log := ⟨logId, s.id, "create", "Input: " ++ d, now⟩ with hLG
  set D2 := exceptToDB D1 (insertLog u D1 LG) with hD2
  have hpres := insertLog_preserves u D1 LG
  rw [← hD2] at hpres
  have hmem1 : sessUpdFun u s.id ⟨some (some d), some "Processing"⟩ now s ∈
      D2.sessions := by
    rw [hpres.1, hD1]
    exact List.mem_map_of_mem _ hs
  set D3 := step5DB u s.id now D2 with hD3
  have hmem3 : sessUpdFun u s.id ⟨none, some "In Progress"⟩ now
      (sessUpdFun u s.id ⟨some (some d), some "Processing"⟩ now s) ∈
      D3.sessions := by
    rw [hD3]
    exact List.mem_map_of_mem _ hmem1
  have hoo : ownsSession D3 u s.id = true := by
    apply List.any_eq_true.mpr
    refine ⟨_, hmem3, ?_⟩
    simp [sessUpdFun_id_eq, sessUpdFun_user_eq, hown]
  have hins := insertCompositeFace_ok u D3
    ⟨faceId, s.id, some "generated_in_memory", 0 + 1, now⟩ hoo
  simp only [exceptToDB]
  rw [hins]
  simp only [exceptToDB]
  constructor
  · intro r hr0 hid
    have hr : r ∈ D3.sessions := hr0
    rw [hD3] at hr
    simp only [step5DB] at hr
    rw [hpres.1, hD1] at hr
    have hD1u : sessionIdsUnique (step1DB u s.id d now db) :=
      unique_map_sessUpdFun db hu u s.id ⟨some (some d), some "Processing"⟩ now
    have hgs : (sessUpdFun u s.id ⟨some (some d), some "Processing"⟩ now s).id
        = s.id := sessUpdFun_id_eq u s.id ⟨some (some d), some "Processing"⟩ now s
    exact mapped_status u (step1DB u s.id d now db)
      (sessUpdFun u s.id ⟨some (some d), some "Processing"⟩ now s) s.id hgs
      ⟨none, some "In Progress"⟩ "In Progress" rfl now hD1u
      (List.mem_map_of_mem _ hs)
      (by rw [sessUpdFun_user_eq]; exact hown) r hr hid
  · have h3f : D3.composite_faces = db.composite_faces := by
      rw [hD3]
      simp only [step5DB]
      rw [hpres.2, hD1]
      rfl
    show D3.composite_faces ++
        [⟨faceId, s.id, some "generated_in_memory", 0 + 1, now⟩] =
      db.composite_faces ++ [⟨faceId, s.id, some "generated_in_memory", 1, now⟩]
    rw [h3f]
    norm_num

theorem handleGenerate_success_inserts_version_one_witness :
    (sessionIdsUnique c3DB ∧
      (⟨1, 10, none, "Started", 0, 0⟩ : Session) ∈ c3DB.sessions) ∧
    ((∀ r ∈ (handleGenerate 10 1 "desc2" (BackendResult.httpOk "ok" none)
        100 200 7 c3DB).db.sessions, r.id = 1 → r.status = "In Progress") ∧
      (handleGenerate 10 1 "desc2" (BackendResult.httpOk "ok" none)
        100 200 7 c3DB).db.composite_faces =
        c3DB.composite_faces ++ [⟨200, 1, some "generated_in_memory", 1, 7⟩]) :=
  ⟨⟨by decide, by decide⟩,
    handleGenerate_success_inserts_version_one 10 c3DB
      ⟨1, 10, none, "Started", 0, 0⟩ "desc2" "ok" none 100 200 7
      (by decide) (by decide) rfl⟩

end ForensicAI
